import Mathlib

/-!
Shallow embedding of `src/ai-models/Deployment/main.py`: the online
pod-autoscaling prediction service.  Numeric values are modelled as
rationals, time instants as naturals, and the outcome of each external
HTTP interaction with the metrics store as an explicit `QueryOutcome`.
Fallible operations return `Except HTTPError`; operations that handle
every exception internally are total functions.
-/

namespace PodPredictor

/-- Embedding of the six named workload readings (the `PrometheusMetrics`
pydantic model, main.py lines 56-62). -/
structure PrometheusMetrics where
  cpu_usage : ℚ
  memory_usage : ℚ
  request_rate : ℚ
  queue_length : ℚ
  response_time : ℚ
  active_connections : ℚ
  deriving DecidableEq, Repr

/-- Outcome of one HTTP query against the metrics store, as observed by
`PrometheusClient.query_metric`: either some exception was raised along
the way (network error, timeout, non-2xx status, malformed body), or a
parsed body carrying a status string and the list of numeric sample
values of `data.result` (each entry standing for `result[i].value[1]`). -/
inductive QueryOutcome where
  | err : QueryOutcome
  | resp (status : String) (result : List ℚ) : QueryOutcome
  deriving DecidableEq, Repr

/-- Embedding of `PrometheusClient.query_metric` (main.py lines 83-93):
returns the first sample value when the body has status `success` and a
non-empty result list; every other path — exception, non-success
status, empty result — falls through to the graceful fallback `0.0`.
The function is total: it never raises to its caller. -/
def query_metric : QueryOutcome → ℚ
  | .err => 0
  | .resp status result =>
    if status = "success" then
      match result with
      | [] => 0
      | v :: _ => v
    else 0

/-- Outcomes of the six concurrent acquisition queries issued by
`get_workload_metrics`, one per named metric. -/
structure QueryOutcomes where
  cpu_usage : QueryOutcome
  memory_usage : QueryOutcome
  request_rate : QueryOutcome
  queue_length : QueryOutcome
  response_time : QueryOutcome
  active_connections : QueryOutcome
  deriving DecidableEq, Repr

/-- Embedding of `PrometheusClient.get_workload_metrics` (main.py lines
95-107): gathers the six independent queries and zips their results
into a structurally complete `PrometheusMetrics`. -/
def get_workload_metrics (q : QueryOutcomes) : PrometheusMetrics where
  cpu_usage := query_metric q.cpu_usage
  memory_usage := query_metric q.memory_usage
  request_rate := query_metric q.request_rate
  queue_length := query_metric q.queue_length
  response_time := query_metric q.response_time
  active_connections := query_metric q.active_connections

/-- Field selector on snapshots, to quantify over the six metrics. -/
def snapField (i : Fin 6) (m : PrometheusMetrics) : ℚ :=
  match i.val with
  | 0 => m.cpu_usage
  | 1 => m.memory_usage
  | 2 => m.request_rate
  | 3 => m.queue_length
  | 4 => m.response_time
  | _ => m.active_connections

/-- Outcome selector matching `snapField`, in the same field order. -/
def outField (i : Fin 6) (q : QueryOutcomes) : QueryOutcome :=
  match i.val with
  | 0 => q.cpu_usage
  | 1 => q.memory_usage
  | 2 => q.request_rate
  | 3 => q.queue_length
  | 4 => q.response_time
  | _ => q.active_connections

/-- Name of the i-th acquired metric, in the order of `snapField`. -/
def metricName (i : Fin 6) : String :=
  match i.val with
  | 0 => "cpu_usage"
  | 1 => "memory_usage"
  | 2 => "request_rate"
  | 3 => "queue_length"
  | 4 => "response_time"
  | _ => "active_connections"

/-- Additive epsilon `1e-6` guarding the engineered ratio
(main.py line 174). -/
def ratioEpsilon : ℚ := 1 / 1000000

/-- Embedding of the `base` dictionary of `build_feature_vector`
(main.py lines 166-176): the six raw metrics plus the two on-the-fly
engineered values, keyed by feature name; `none` for any other name. -/
def baseLookup (m : PrometheusMetrics) (fname : String) : Option ℚ :=
  if fname = "cpu_usage" then some m.cpu_usage
  else if fname = "memory_usage" then some m.memory_usage
  else if fname = "request_rate" then some m.request_rate
  else if fname = "queue_length" then some m.queue_length
  else if fname = "response_time" then some m.response_time
  else if fname = "active_connections" then some m.active_connections
  else if fname = "cpu_memory_ratio" then
    some (m.cpu_usage / (m.memory_usage + ratioEpsilon))
  else if fname = "network_total" then some m.request_rate
  else none

/-- The keys of the `base` dictionary: the six acquired fields plus the
two engineered features.  Any schema name outside this list is an
unknown feature. -/
def knownFeatureNames : List String :=
  ["cpu_usage", "memory_usage", "request_rate", "queue_length",
   "response_time", "active_connections", "cpu_memory_ratio", "network_total"]

/-- Embedding of `build_feature_vector` (main.py lines 156-184): a
vector of zeros of the schema length, overwritten at index `i` with
`base[fname]` whenever the i-th expected feature name is a key of
`base`; slots whose name is unknown stay 0.  (The final numpy
`reshape(1, -1)` only adds an outer singleton dimension and is dropped
here.) -/
def build_feature_vector (expected_feature_names : List String)
    (metrics : PrometheusMetrics) : List ℚ :=
  expected_feature_names.map (fun fname => (baseLookup metrics fname).getD 0)

/-- Embedding of Python's `round`: nearest integer, ties to even (the
rounding applied to the raw predictor output at main.py line 254). -/
def pyRound (x : ℚ) : ℤ :=
  if x - ⌊x⌋ < 1 / 2 then ⌊x⌋
  else if x - ⌊x⌋ > 1 / 2 then ⌊x⌋ + 1
  else if ⌊x⌋ % 2 = 0 then ⌊x⌋ else ⌊x⌋ + 1

/-- The opaque trained predictor loaded by `joblib.load` (main.py line
132).  Per the scikit-learn contract relied on at main.py lines
240-244, `predict` raises `ValueError` exactly when the feature-vector
length differs from the feature count seen at fit time; otherwise it
returns a numeric prediction `predict_fn vec`.  `proba_max` models the
optional `predict_proba` capability: `none` when the attribute is
absent, and `some f` when present, where `f vec = none` means the call
(or the subsequent `np.max`) raised and `f vec = some c` means it
returned maximum class probability `c`. -/
structure Model where
  n_features : ℕ
  predict_fn : List ℚ → ℚ
  proba_max : Option (List ℚ → Option ℚ)

/-- The `ValueError` message scikit-learn raises on a feature-count
mismatch, carrying both counts. -/
def featureMismatchDetail (got expected : ℕ) : String :=
  "X has " ++ toString got ++ " features, but the model is expecting "
    ++ toString expected ++ " features as input."

/-- Embedding of `model.predict(feature_vector)[0]` (main.py line 241):
the raw numeric output on a well-shaped vector, or the `ValueError`
detail on a feature-count mismatch. -/
def Model.predict (m : Model) (vec : List ℚ) : Except String ℚ :=
  if vec.length = m.n_features then .ok (m.predict_fn vec)
  else .error (featureMismatchDetail vec.length m.n_features)

/-- Best-effort confidence (main.py lines 247-252): defaults to `0.95`;
when the predictor exposes `predict_proba`, takes the maximum class
probability, keeping the default if that call raises. -/
def Model.confidence (m : Model) (vec : List ℚ) : ℚ :=
  match m.proba_max with
  | none => 95 / 100
  | some f =>
    match f vec with
    | none => 95 / 100
    | some c => c

/-- A raised `fastapi.HTTPException`: status code and detail string. -/
structure HTTPError where
  status_code : ℕ
  detail : String
  deriving DecidableEq, Repr

/-- Mutable runtime state of the service process: the global model and
expected feature-name list (main.py lines 50-51) and the three custom
Prometheus instruments (main.py lines 33-36). -/
structure ServerState where
  model : Option Model
  expected_feature_names : List String
  prediction_counter : ℕ
  prediction_gauge : ℤ
  model_confidence_gauge : ℚ

/-- Response body of `/predict-from-prometheus` (main.py lines 64-69),
with timestamps as abstract instants. -/
structure PredictionResponse where
  predicted_pod_count : ℤ
  confidence : ℚ
  timestamp : ℕ
  metrics_used : PrometheusMetrics
  model_version : String

/-- Response body of `/keda-metric` (main.py lines 71-73). -/
structure KEDAMetricResponse where
  metric_value : ℤ
  timestamp : ℕ
  deriving DecidableEq, Repr

/-- Embedding of `predict_from_prometheus` (main.py lines 232-269).
Inputs: the current server state, the outcomes of the six acquisition
queries this call will issue, and the current instant.  Raises 503 when
the model is not loaded or the feature-name list is empty; acquires a
fresh snapshot, aligns it, runs inference (raising 500 with the
`ValueError` detail on a feature mismatch), converts the raw output
with `max(1, round(raw))`, increments the request counter, sets both
gauges, and returns the response together with the updated state.  The
intermediate Python locals `metrics`, `feature_vector`, `confidence`
and `pods` are inlined. -/
def predict_from_prometheus (st : ServerState) (q : QueryOutcomes)
    (now : ℕ) : Except HTTPError (PredictionResponse × ServerState) :=
  match st.model with
  | none => .error ⟨503, "Model not loaded or feature names unavailable"⟩
  | some m =>
    if st.expected_feature_names = [] then
      .error ⟨503, "Model not loaded or feature names unavailable"⟩
    else
      match m.predict (build_feature_vector st.expected_feature_names
          (get_workload_metrics q)) with
      | .error ex => .error ⟨500, "Prediction failed: " ++ ex⟩
      | .ok raw_pred =>
        .ok (⟨max 1 (pyRound raw_pred),
              m.confidence (build_feature_vector st.expected_feature_names
                (get_workload_metrics q)),
              now, get_workload_metrics q, "1.1.0"⟩,
          { st with
            prediction_counter := st.prediction_counter + 1
            prediction_gauge := max 1 (pyRound raw_pred)
            model_confidence_gauge :=
              m.confidence (build_feature_vector st.expected_feature_names
                (get_workload_metrics q)) })

/-- Embedding of `keda_metric` (main.py lines 271-279): returns the
predicted pod count, or falls back to the safe floor of one replica
whenever the prediction path raised an `HTTPException`.  Total: never
raises. -/
def keda_metric (st : ServerState) (q : QueryOutcomes) (now : ℕ) :
    KEDAMetricResponse × ServerState :=
  match predict_from_prometheus st q now with
  | .ok (prediction, st') =>
    (⟨prediction.predicted_pod_count, prediction.timestamp⟩, st')
  | .error _ => (⟨1, now⟩, st)

/-- Response body of `/health` (main.py lines 221-227). -/
structure HealthResponse where
  status : String
  model_loaded : Bool
  prometheus_connected : Bool
  expected_features : ℕ
  timestamp : ℕ
  deriving DecidableEq, Repr

/-- Embedding of `health_check` (main.py lines 211-227).  `upOutcome`
is whatever happened to the probe query `up` against the metrics store.
Because `query_metric` handles every exception internally and returns
`0.0` (main.py lines 91-93), the awaited call completes on every
outcome, so the assignment `prom_ok = True` always runs and the
`except` arm of the health check is unreachable. -/
def health_check (st : ServerState) (upOutcome : QueryOutcome) (now : ℕ) :
    HealthResponse :=
  let _probe := query_metric upOutcome
  let prom_ok := true
  { status := if st.model.isSome && prom_ok then "healthy" else "unhealthy"
    model_loaded := st.model.isSome
    prometheus_connected := prom_ok
    expected_features := st.expected_feature_names.length
    timestamp := now }

/-- Fixed scheduler sleep interval, in time units (main.py line 204). -/
def schedulerInterval : ℕ := 30

/-- One tick of the background loop body (main.py lines 198-204): when
the model is loaded, run the prediction pipeline, catching and logging
any exception; the state is left unchanged on a failed tick. -/
def scheduler_tick (st : ServerState) (q : QueryOutcomes) (now : ℕ) :
    ServerState :=
  if st.model.isSome then
    match predict_from_prometheus st q now with
    | .ok (_, st') => st'
    | .error _ => st
  else st

/-- Finitely many iterations of the `while True` body of
`_background_prediction_loop` (main.py lines 197-204): each tick
consumes one environment entry (the acquisition outcomes it will
observe), then the loop sleeps `schedulerInterval` before the next
tick. -/
def scheduler_run (st : ServerState) (t : ℕ) :
    List QueryOutcomes → ServerState × ℕ
  | [] => (st, t)
  | q :: rest =>
    scheduler_run (scheduler_tick st q t) (t + schedulerInterval) rest

/-! Concrete fixtures used by witnesses and counterexamples. -/

/-- A loaded predictor expecting three features that predicts the value
of its first feature. -/
def mW : Model := ⟨3, fun v => v.headD 0, none⟩

/-- A healthy server state holding `mW` and a three-name schema. -/
def stW : ServerState :=
  ⟨some mW, ["cpu_usage", "memory_usage", "request_rate"], 0, 0, 0⟩

/-- Acquisition outcomes where the cpu query fails and the memory query
succeeds with value 100. -/
def qW : QueryOutcomes :=
  ⟨.err, .resp "success" [100], .err, .err, .err, .err⟩

/-- A server state whose model failed to load. -/
def stNone : ServerState := ⟨none, [], 0, 0, 0⟩

/-- A predictor fitted on five features (while the schema served by
`stBad` names only three): every inference attempt is a feature-count
mismatch. -/
def mBad : Model := ⟨5, fun v => v.headD 0, none⟩

/-- A server state whose schema length (3) disagrees with the feature
count of its loaded model `mBad` (5). -/
def stBad : ServerState :=
  ⟨some mBad, ["cpu_usage", "memory_usage", "request_rate"], 3, 7, 1 / 2⟩

/-- A loaded predictor expecting one feature, predicting its value. -/
def mC2 : Model := ⟨1, fun v => v.headD 0, none⟩

/-- Initial state for the double-call experiment. -/
def stC2 : ServerState := ⟨some mC2, ["cpu_usage"], 0, 0, 0⟩

/-- Store data at the first call: cpu reads 2. -/
def qA : QueryOutcomes :=
  ⟨.resp "success" [2], .err, .err, .err, .err, .err⟩

/-- Store data at the second call: cpu now reads 10. -/
def qB : QueryOutcomes :=
  ⟨.resp "success" [10], .err, .err, .err, .err, .err⟩

/-- Response of the first call on `qA`. -/
def respA : PredictionResponse := ⟨2, 95 / 100, 0, ⟨2, 0, 0, 0, 0, 0⟩, "1.1.0"⟩

/-- State after the first call on `qA`. -/
def stA : ServerState := ⟨some mC2, ["cpu_usage"], 1, 2, 95 / 100⟩

/-- State after a second call that saw `qA` again. -/
def stA2 : ServerState := ⟨some mC2, ["cpu_usage"], 2, 2, 95 / 100⟩

/-- Response of a second call that saw `qB`. -/
def respB : PredictionResponse := ⟨10, 95 / 100, 0, ⟨10, 0, 0, 0, 0, 0⟩, "1.1.0"⟩

/-- State after a second call that saw `qB`. -/
def stB : ServerState := ⟨some mC2, ["cpu_usage"], 2, 10, 95 / 100⟩

/-! Theorems. -/

/-- Helper: `pyRound` lands on a nearest integer — it never strays more
than one half from its argument. -/
theorem pyRound_nearest (x : ℚ) : |x - (pyRound x : ℚ)| ≤ 1 / 2 := by
  have h0 : (⌊x⌋ : ℚ) ≤ x := Int.floor_le x
  have h1 : x < ⌊x⌋ + 1 := Int.lt_floor_add_one x
  rw [abs_sub_le_iff]
  unfold pyRound
  split
  next hlt => constructor <;> linarith
  next hge =>
    split
    next hgt => constructor <;> push_cast <;> linarith
    next hle =>
      split
      next => constructor <;> linarith
      next => constructor <;> push_cast <;> linarith

/-- C4: for every snapshot and schema, `build_feature_vector` returns a
vector of the schema's length whose i-th entry is the matching raw
metric when the i-th schema name is one of the six acquired fields and
zero when the name is unknown; the concrete scenario
`["cpu_usage", "unknown_feat", "memory_usage"]` with cpu 40 and memory
512 yields `[40, 0, 512]`. -/
theorem build_feature_vector_schema_aligned (names : List String)
    (m : PrometheusMetrics) :
    (build_feature_vector names m).length = names.length
    ∧ (∀ (i : Fin 6) (j : ℕ) (h : j < names.length),
        names.get ⟨j, h⟩ = metricName i →
        (build_feature_vector names m).getD j 0 = snapField i m)
    ∧ (∀ (j : ℕ) (h : j < names.length),
        names.get ⟨j, h⟩ ∉ knownFeatureNames →
        (build_feature_vector names m).getD j 0 = 0)
    ∧ build_feature_vector ["cpu_usage", "unknown_feat", "memory_usage"]
        ⟨40, 512, 0, 0, 0, 0⟩ = [40, 0, 512] := by
  refine ⟨by simp [build_feature_vector], ?_, ?_, ?_⟩
  · intro i j h hname
    unfold build_feature_vector
    rw [List.getD_eq_getElem _ _ (by simpa [build_feature_vector] using h),
      List.getElem_map]
    have hn : names[j] = metricName i := hname
    rw [hn]
    fin_cases i <;> simp [baseLookup, metricName, snapField]
  · intro j h hmem
    unfold build_feature_vector
    rw [List.getD_eq_getElem _ _ (by simpa [build_feature_vector] using h),
      List.getElem_map]
    have hmem' : names[j] ∉ knownFeatureNames := hmem
    simp only [knownFeatureNames, List.mem_cons, List.not_mem_nil, or_false,
      not_or] at hmem'
    obtain ⟨h1, h2, h3, h4, h5, h6, h7, h8⟩ := hmem'
    simp [baseLookup, h1, h2, h3, h4, h5, h6, h7, h8]
  · simp [build_feature_vector, baseLookup]

/-- C4 witness: the theorem applied to the spec's concrete scenario,
reading back entry 0 (an acquired field) and entry 1 (an unknown
feature). -/
theorem build_feature_vector_schema_aligned_witness :
    (build_feature_vector ["cpu_usage", "unknown_feat", "memory_usage"]
      ⟨40, 512, 0, 0, 0, 0⟩).getD 0 0 = 40
    ∧ (build_feature_vector ["cpu_usage", "unknown_feat", "memory_usage"]
      ⟨40, 512, 0, 0, 0, 0⟩).getD 1 0 = 0 :=
  ⟨(build_feature_vector_schema_aligned
      ["cpu_usage", "unknown_feat", "memory_usage"] ⟨40, 512, 0, 0, 0, 0⟩).2.1
    0 0 (by decide) rfl,
   (build_feature_vector_schema_aligned
      ["cpu_usage", "unknown_feat", "memory_usage"] ⟨40, 512, 0, 0, 0, 0⟩).2.2.1
    1 (by decide) (by decide)⟩

/-- C5: acquisition failures are isolated per query — for each of the
six metrics, a failed query contributes exactly `0` to the (always
structurally complete) snapshot, while a successful query contributes
its sample value exactly; `get_workload_metrics` is total, so
acquisition never raises. -/
theorem get_workload_metrics_isolates_failures (q : QueryOutcomes)
    (i : Fin 6) :
    (outField i q = .err → snapField i (get_workload_metrics q) = 0)
    ∧ (∀ (v : ℚ) (rest : List ℚ),
        outField i q = .resp "success" (v :: rest) →
        snapField i (get_workload_metrics q) = v) := by
  constructor
  · intro h
    fin_cases i <;> simp_all [get_workload_metrics, snapField, outField, query_metric]
  · intro v rest h
    fin_cases i <;> simp_all [get_workload_metrics, snapField, outField, query_metric]

/-- C5 witness: on `qW` (cpu query failed, memory query succeeded with
100) the snapshot holds cpu 0 and memory 100. -/
theorem get_workload_metrics_isolates_failures_witness :
    snapField 0 (get_workload_metrics qW) = 0
    ∧ snapField 1 (get_workload_metrics qW) = 100 :=
  ⟨(get_workload_metrics_isolates_failures qW 0).1 rfl,
   (get_workload_metrics_isolates_failures qW 1).2 100 [] rfl⟩

/-- C9: the engineered ratio is division-safe — whenever the schema
names `cpu_memory_ratio` and the snapshot's memory reading is
non-negative, the aligned entry equals
`cpu_usage / (memory_usage + 1e-6)` and the denominator is strictly
positive. -/
theorem cpu_memory_ratio_division_safe (m : PrometheusMetrics)
    (names : List String) (j : ℕ) (h : j < names.length)
    (hmem : 0 ≤ m.memory_usage)
    (hname : names.get ⟨j, h⟩ = "cpu_memory_ratio") :
    0 < m.memory_usage + ratioEpsilon
    ∧ ratioEpsilon = 1 / 1000000
    ∧ (build_feature_vector names m).getD j 0
        = m.cpu_usage / (m.memory_usage + ratioEpsilon) := by
  refine ⟨?_, rfl, ?_⟩
  · have hpos : (0 : ℚ) < ratioEpsilon := by norm_num [ratioEpsilon]
    linarith
  · unfold build_feature_vector
    rw [List.getD_eq_getElem _ _ (by simpa [build_feature_vector] using h),
      List.getElem_map]
    have hn : names[j] = "cpu_memory_ratio" := hname
    rw [hn]
    simp [baseLookup]

/-- C9 witness: the ratio slot of schema `["cpu_memory_ratio"]` on a
snapshot with cpu 40 and memory 512. -/
theorem cpu_memory_ratio_division_safe_witness :
    0 < (512 : ℚ) + ratioEpsilon
    ∧ ratioEpsilon = 1 / 1000000
    ∧ (build_feature_vector ["cpu_memory_ratio"] ⟨40, 512, 0, 0, 0, 0⟩).getD 0 0
        = 40 / (512 + ratioEpsilon) :=
  cpu_memory_ratio_division_safe ⟨40, 512, 0, 0, 0, 0⟩ ["cpu_memory_ratio"]
    0 (by decide) (by norm_num) rfl

/-- C10: a response that arrives without error but carries a
non-success status or an empty result list makes `query_metric` return
`0` — the same value as a failed or timed-out query, and the same value
as a genuine sample measuring zero, so a snapshot cannot distinguish
"no data" from "measured zero". -/
theorem query_metric_no_data_equals_failure (status : String)
    (result : List ℚ)
    (h : status ≠ "success" ∨ result = []) :
    query_metric (.resp status result) = 0
    ∧ query_metric (.resp status result) = query_metric .err
    ∧ query_metric (.resp "success" [0]) = query_metric .err := by
  have h0 : query_metric (.resp status result) = 0 := by
    rcases h with h | h
    · simp [query_metric, h]
    · subst h
      simp only [query_metric]
      split <;> rfl
  exact ⟨h0, h0, rfl⟩

/-- C10 witness: a response with status `error` and a non-empty result
list yields 0, indistinguishable from an exception. -/
theorem query_metric_no_data_equals_failure_witness :
    query_metric (.resp "error" [5]) = 0
    ∧ query_metric (.resp "error" [5]) = query_metric .err
    ∧ query_metric (.resp "success" [0]) = query_metric .err :=
  query_metric_no_data_equals_failure "error" [5] (Or.inl (by decide))

/-- C1: the scaling-signal query never raises to its caller
(`keda_metric` is a total function): whenever the prediction path
raised — model not loaded, feature names unavailable, predictor error —
the returned metric value is exactly 1, and on success it is the
predicted pod count. -/
theorem keda_metric_safe_floor (st : ServerState) (q : QueryOutcomes)
    (now : ℕ) :
    (∀ e, predict_from_prometheus st q now = .error e →
      (keda_metric st q now).1 = ⟨1, now⟩)
    ∧ (∀ p st', predict_from_prometheus st q now = .ok (p, st') →
      (keda_metric st q now).1 = ⟨p.predicted_pod_count, p.timestamp⟩) := by
  constructor
  · intro e h
    simp [keda_metric, h]
  · intro p st' h
    simp [keda_metric, h]

/-- C1 witness: with no model loaded the prediction path raises 503 and
the scaling signal degrades to the safe floor 1. -/
theorem keda_metric_safe_floor_witness :
    (keda_metric stNone qW 0).1 = ⟨1, 0⟩ :=
  (keda_metric_safe_floor stNone qW 0).1
    ⟨503, "Model not loaded or feature names unavailable"⟩ rfl

/-- C3: every published replica count is the raw predictor output
rounded to a nearest integer (ties to even) and then floored at 1, so
every successful prediction carries `predicted_pod_count ≥ 1`,
regardless of the raw output's sign or magnitude. -/
theorem predicted_pod_count_rounded_floored (st : ServerState)
    (q : QueryOutcomes) (now : ℕ) (p : PredictionResponse)
    (st' : ServerState)
    (h : predict_from_prometheus st q now = .ok (p, st')) :
    ∃ (m : Model) (raw : ℚ),
      st.model = some m
      ∧ m.predict (build_feature_vector st.expected_feature_names
          (get_workload_metrics q)) = .ok raw
      ∧ p.predicted_pod_count = max 1 (pyRound raw)
      ∧ |raw - (pyRound raw : ℚ)| ≤ 1 / 2
      ∧ 1 ≤ p.predicted_pod_count := by
  unfold predict_from_prometheus at h
  split at h
  · exact Except.noConfusion h
  next m hm =>
    split at h
    · exact Except.noConfusion h
    · split at h
      · exact Except.noConfusion h
      next raw hraw =>
        injection h with h'
        injection h' with h1 h2
        subst h1
        exact ⟨m, raw, hm, hraw, rfl, pyRound_nearest raw, le_max_left 1 _⟩

/-- C3 witness: a run whose acquisition yields cpu 0 and memory 100,
with a predictor returning its first feature (raw output 0): the
published count is floored to 1. -/
theorem predicted_pod_count_rounded_floored_witness :
    ∃ (m : Model) (raw : ℚ),
      stW.model = some m
      ∧ m.predict (build_feature_vector stW.expected_feature_names
          (get_workload_metrics qW)) = .ok raw
      ∧ (1 : ℤ) = max 1 (pyRound raw)
      ∧ |raw - (pyRound raw : ℚ)| ≤ 1 / 2
      ∧ (1 : ℤ) ≤ 1 :=
  predicted_pod_count_rounded_floored stW qW 0
    ⟨1, 95 / 100, 0, get_workload_metrics qW, "1.1.0"⟩
    { stW with
      prediction_counter := 1
      prediction_gauge := 1
      model_confidence_gauge := 95 / 100 }
    (by
      simp [predict_from_prometheus, stW, mW, qW, get_workload_metrics,
        query_metric, build_feature_vector, baseLookup, Model.predict,
        Model.confidence]
      norm_num [pyRound])

/-- C8: a feature-count mismatch between the aligned vector and the
predictor's expected feature count is reported to the caller as a
distinct explicit error — status 500 with the `ValueError` detail
naming both counts — different from the model-unavailable 503, and the
call never returns a fabricated prediction. -/
theorem feature_mismatch_reported (st : ServerState) (q : QueryOutcomes)
    (now : ℕ) (m : Model) (hm : st.model = some m)
    (hne : st.expected_feature_names ≠ [])
    (hlen : st.expected_feature_names.length ≠ m.n_features) :
    predict_from_prometheus st q now
      = .error ⟨500, "Prediction failed: "
          ++ featureMismatchDetail st.expected_feature_names.length
            m.n_features⟩
    ∧ predict_from_prometheus st q now
        ≠ .error ⟨503, "Model not loaded or feature names unavailable"⟩
    ∧ ∀ (p : PredictionResponse) (st' : ServerState),
        predict_from_prometheus st q now ≠ .ok (p, st') := by
  have hvec : (build_feature_vector st.expected_feature_names
      (get_workload_metrics q)).length = st.expected_feature_names.length := by
    simp [build_feature_vector]
  have hpred : m.predict (build_feature_vector st.expected_feature_names
      (get_workload_metrics q))
      = .error (featureMismatchDetail st.expected_feature_names.length
          m.n_features) := by
    unfold Model.predict
    rw [hvec, if_neg hlen]
  have h0 : predict_from_prometheus st q now
      = .error ⟨500, "Prediction failed: "
          ++ featureMismatchDetail st.expected_feature_names.length
            m.n_features⟩ := by
    unfold predict_from_prometheus
    simp only [hm]
    rw [if_neg hne, hpred]
  refine ⟨h0, ?_, ?_⟩
  · rw [h0]
    simp
  · intro p st' hcontra
    rw [h0] at hcontra
    exact Except.noConfusion hcontra

/-- C8 witness: a schema of three names served to a predictor fitted on
five features is rejected with the explicit mismatch error. -/
theorem feature_mismatch_reported_witness :
    predict_from_prometheus stBad qW 0
      = .error ⟨500, "Prediction failed: " ++ featureMismatchDetail 3 5⟩
    ∧ predict_from_prometheus stBad qW 0
        ≠ .error ⟨503, "Model not loaded or feature names unavailable"⟩
    ∧ ∀ (p : PredictionResponse) (st' : ServerState),
        predict_from_prometheus stBad qW 0 ≠ .ok (p, st') :=
  feature_mismatch_reported stBad qW 0 mBad rfl (by decide) (by decide)

/-- C2 counterexample: there is no prediction cache — a second
immediate synchronous call (no scheduler tick in between) re-runs the
whole pipeline.  Even on identical store data the served-prediction
counter advances again (duplicate inference work), and when the store
data changed between the calls the two PredictionResults differ. -/
theorem predict_twice_not_cached_counterexample :
    predict_from_prometheus stC2 qA 0 = .ok (respA, stA)
    ∧ predict_from_prometheus stA qA 0 = .ok (respA, stA2)
    ∧ stA2.prediction_counter ≠ stA.prediction_counter
    ∧ predict_from_prometheus stA qB 0 = .ok (respB, stB)
    ∧ respB.predicted_pod_count ≠ respA.predicted_pod_count := by
  refine ⟨?_, ?_, by decide, ?_, by decide⟩
  · simp [predict_from_prometheus, stC2, mC2, qA, get_workload_metrics,
      query_metric, build_feature_vector, baseLookup, Model.predict,
      Model.confidence, respA, stA]
    norm_num [pyRound]
  · simp [predict_from_prometheus, stC2, stA, mC2, qA, get_workload_metrics,
      query_metric, build_feature_vector, baseLookup, Model.predict,
      Model.confidence, respA, stA2]
    norm_num [pyRound]
  · simp [predict_from_prometheus, stA, mC2, qB, get_workload_metrics,
      query_metric, build_feature_vector, baseLookup, Model.predict,
      Model.confidence, respB, stB]
    norm_num [pyRound]

/-- C2 amended: the synchronous prediction query serves no cache — each
successful call performs its own acquisition and inference: the
response's snapshot is the one freshly acquired by that very call, and
the served-prediction counter advances by exactly one per call, so two
immediate successive calls do duplicate inference work and agree only
when the freshly acquired data agrees. -/
theorem predict_reinvokes_pipeline_each_call (st : ServerState)
    (q : QueryOutcomes) (now : ℕ) (p : PredictionResponse)
    (st' : ServerState)
    (h : predict_from_prometheus st q now = .ok (p, st')) :
    st'.prediction_counter = st.prediction_counter + 1
    ∧ p.metrics_used = get_workload_metrics q := by
  unfold predict_from_prometheus at h
  split at h
  · exact Except.noConfusion h
  next m hm =>
    split at h
    · exact Except.noConfusion h
    · split at h
      · exact Except.noConfusion h
      next raw hraw =>
        injection h with h'
        injection h' with h1 h2
        subst h1
        subst h2
        exact ⟨rfl, rfl⟩

/-- C2 amended witness: the first call of the double-call experiment
increments the counter from 0 to 1 and embeds the snapshot it acquired
itself. -/
theorem predict_reinvokes_pipeline_each_call_witness :
    stA.prediction_counter = stC2.prediction_counter + 1
    ∧ respA.metrics_used = get_workload_metrics qA :=
  predict_reinvokes_pipeline_each_call stC2 qA 0 respA stA
    (by
      simp [predict_from_prometheus, stC2, mC2, qA, get_workload_metrics,
        query_metric, build_feature_vector, baseLookup, Model.predict,
        Model.confidence, respA, stA]
      norm_num [pyRound])

/-- C6: evaluation of the health check at the failing input.  The
`except` arm of `health_check` is unreachable because `query_metric`
already swallows every exception, so even when the probe query against
the metrics store fails (`upOutcome = .err`, store unreachable) the
endpoint still reports `prometheus_connected = true`, and its status is
`healthy` exactly when the model is loaded — the store's reachability
never influences the report. -/
theorem health_check_connected_despite_unreachable_store
    (st : ServerState) (o : QueryOutcome) (now : ℕ) :
    (health_check st .err now).prometheus_connected = true
    ∧ (health_check st o now).prometheus_connected = true
    ∧ ((health_check st .err now).status = "healthy"
        ↔ st.model.isSome = true) := by
  refine ⟨rfl, rfl, ?_⟩
  unfold health_check
  cases hm : st.model.isSome <;> simp [hm]

/-- C7: a stage failure inside one scheduled tick never terminates the
loop — the failing tick is caught, publishes nothing (counter and
gauges keep their previous values), and the loop proceeds to the next
tick after its fixed 30-unit sleep. -/
theorem scheduler_survives_stage_failure (st : ServerState)
    (q : QueryOutcomes) (t : ℕ) (rest : List QueryOutcomes)
    (e : HTTPError)
    (h : predict_from_prometheus st q t = .error e) :
    scheduler_tick st q t = st
    ∧ scheduler_run st t (q :: rest)
        = scheduler_run st (t + schedulerInterval) rest
    ∧ schedulerInterval = 30 := by
  have htick : scheduler_tick st q t = st := by
    unfold scheduler_tick
    split
    · rw [h]
    · rfl
  refine ⟨htick, ?_, rfl⟩
  show scheduler_run (scheduler_tick st q t) (t + schedulerInterval) rest = _
  rw [htick]

/-- C7 witness: a tick that fails with the feature-mismatch error
leaves the state `stBad` (counter 3, gauge 7) untouched and the loop
marches on to the next tick 30 units later. -/
theorem scheduler_survives_stage_failure_witness :
    scheduler_tick stBad qW 0 = stBad
    ∧ scheduler_run stBad 0 [qW] = scheduler_run stBad 30 []
    ∧ schedulerInterval = 30 :=
  scheduler_survives_stage_failure stBad qW 0 []
    ⟨500, "Prediction failed: " ++ featureMismatchDetail 3 5⟩ rfl

end PodPredictor
